import Mathlib

/-!
Shallow embedding of the Arduino-Log library (src/ArduinoLog.h, version 1.0.3):
the `Logging` class with its level-gated dispatcher `printLevel`, the format
interpreter `printFormat` together with the two `print` overloads (normal
memory `const char*` and program memory `const __FlashStringHelper*`), and the
configuration setters/getters.

The output sink (`Print*`) and the prefix/suffix callbacks are external to the
repository; they are modelled by the byte sequences they write.  The embedding
records a call's observable behaviour as a trace of events: sink writes and
hook invocations.
-/

/-- An argument pulled from the variadic list.  Each constructor corresponds to
one C type read by `va_arg` in `Logging::printFormat`.  Strings carried by
pointers (`char*` for `%s`, `__FlashStringHelper*` for `%P`, `String` objects
for `%S`) are modelled by their character content.  Modelled from the spec:
floating-point values (`%D`/`%F`) are rendered by the sink's natural
float-to-text rule, which lives outside this repository, so a float argument is
represented by that rendering.  An `IPAddress` (`%I`) is its four octets. -/
inductive LogArg where
  | str (s : String)
  | strObj (s : String)
  | flash (s : String)
  | int (n : Int)
  | long (n : Int)
  | ulong (n : Nat)
  | float (text : String)
  | ip (a b c d : Nat)
deriving DecidableEq, Repr

/-- `va_arg(*args, int)`: pull the head of the list as an `int`.  A missing or
differently-typed argument is undefined behaviour in C; the model reads 0. -/
def LogArg.asInt : LogArg → Int
  | .int n => n
  | _ => 0

/-- `va_arg(*args, long)`; mismatch reads 0 (undefined behaviour in C). -/
def LogArg.asLong : LogArg → Int
  | .long n => n
  | _ => 0

/-- `va_arg(*args, unsigned long)`; mismatch reads 0 (undefined behaviour in C). -/
def LogArg.asULong : LogArg → Nat
  | .ulong n => n
  | _ => 0

/-- `va_arg(*args, int)` reinterpreted as `char*` for `%s`; mismatch reads "". -/
def LogArg.asStr : LogArg → String
  | .str s => s
  | _ => ""

/-- `va_arg(*args, String)` for `%S`; mismatch reads "". -/
def LogArg.asStrObj : LogArg → String
  | .strObj s => s
  | _ => ""

/-- `va_arg(*args, int)` reinterpreted as `__FlashStringHelper*` for `%P`. -/
def LogArg.asFlash : LogArg → String
  | .flash s => s
  | _ => ""

/-- The sink rendering of a `double` for `%D`/`%F` (see `LogArg.float`). -/
def LogArg.asFloatText : LogArg → String
  | .float t => t
  | _ => ""

/-- The four octets of an `IPAddress` for `%I`; mismatch reads 0.0.0.0. -/
def LogArg.asIp : LogArg → Nat × Nat × Nat × Nat
  | .ip a b c d => (a % 256, b % 256, c % 256, d % 256)
  | _ => (0, 0, 0, 0)

/-- Modelled from the spec: the sink's "write an integer in a given radix"
capability (`Print::print(value, base)` of the Arduino core, not part of this
repository).  Decimal renders a sign; other radices render the value
reinterpreted as an unsigned machine word (32-bit here), with lowercase
hexadecimal digits as the spec's rendering table prescribes. -/
def printNumber (n : Int) (base : Nat) : String :=
  if base = 10 then
    if n < 0 then "-" ++ String.mk (Nat.toDigits 10 n.natAbs)
    else String.mk (Nat.toDigits 10 n.toNat)
  else String.mk (Nat.toDigits base (n.emod (2 ^ 32)).toNat)

/-- `sprintf(s, "%d.%d.%d.%d", ip[0], ip[1], ip[2], ip[3])` used by `%I`. -/
def ipToString : Nat × Nat × Nat × Nat → String
  | (a, b, c, d) =>
    toString a ++ "." ++ toString b ++ "." ++ toString c ++ "." ++ toString d

/-- `Logging::printFormat(const char format, va_list *args)`: dispatch on one
specifier character, consume at most one argument, return the bytes written to
the sink together with the remaining argument list.  Branches mirror the
if/else chain of the source (the non-ESP8266 build, which includes `%S` and
`%I`); a specifier matching no branch falls through and writes nothing. -/
def printFormat (format : Char) (args : List LogArg) : String × List LogArg :=
  if format = '%' then
    (String.singleton format, args)
  else if format = 's' then
    match args with
    | [] => ("", [])
    | a :: rest => (a.asStr, rest)
  else if format = 'S' then
    match args with
    | [] => ("", [])
    | a :: rest => (a.asStrObj, rest)
  else if format = 'I' then
    match args with
    | [] => ("", [])
    | a :: rest => (ipToString a.asIp, rest)
  else if format = 'P' then
    match args with
    | [] => ("", [])
    | a :: rest => (a.asFlash, rest)
  else if format = 'd' ∨ format = 'i' then
    match args with
    | [] => ("", [])
    | a :: rest => (printNumber a.asInt 10, rest)
  else if format = 'D' ∨ format = 'F' then
    match args with
    | [] => ("", [])
    | a :: rest => (a.asFloatText, rest)
  else if format = 'x' then
    match args with
    | [] => ("", [])
    | a :: rest => (printNumber a.asInt 16, rest)
  else if format = 'X' then
    match args with
    | [] => ("", [])
    | a :: rest => ("0x" ++ printNumber a.asInt 16, rest)
  else if format = 'b' then
    match args with
    | [] => ("", [])
    | a :: rest => (printNumber a.asInt 2, rest)
  else if format = 'B' then
    match args with
    | [] => ("", [])
    | a :: rest => ("0b" ++ printNumber a.asInt 2, rest)
  else if format = 'l' then
    match args with
    | [] => ("", [])
    | a :: rest => (printNumber a.asLong 10, rest)
  else if format = 'u' then
    match args with
    | [] => ("", [])
    | a :: rest => (printNumber (Int.ofNat a.asULong) 10, rest)
  else if format = 'c' then
    match args with
    | [] => ("", [])
    | a :: rest => (String.singleton (Char.ofNat (a.asInt.emod 256).toNat), rest)
  else if format = 't' then
    match args with
    | [] => ("", [])
    | a :: rest => (if a.asInt = 1 then "T" else "F", rest)
  else if format = 'T' then
    match args with
    | [] => ("", [])
    | a :: rest => (if a.asInt = 1 then "true" else "false", rest)
  else
    ("", args)

/-- `Logging::print(const char *format, va_list args)`: scan the format string
left to right; an ordinary character is written verbatim, `'%'` consumes the
following character as the specifier and dispatches to `printFormat`.  A
trailing `'%'` reads the null terminator as its specifier (which matches no
branch) and the scan ends there. -/
def printChars : List Char → List LogArg → String
  | [], _ => ""
  | c :: format, args =>
    if c = '%' then
      match format with
      | [] => (printFormat (Char.ofNat 0) args).1
      | c2 :: rest =>
        let r := printFormat c2 args
        r.1 ++ printChars rest r.2
    else
      String.singleton c ++ printChars format args

/-- `Logging::print(const __FlashStringHelper *format, va_list args)`: the
program-memory overload.  Characters are fetched with `pgm_read_byte` instead
of pointer dereference; the scan logic is the same character-at-a-time loop. -/
def printFlash : List Char → List LogArg → String
  | [], _ => ""
  | c :: p, args =>
    if c = '%' then
      match p with
      | [] => (printFormat (Char.ofNat 0) args).1
      | c2 :: p2 =>
        let r := printFormat c2 args
        r.1 ++ printFlash p2 r.2
    else
      String.singleton c ++ printFlash p args

/-- One observable step of a logging call: a byte sequence written to the sink,
or the invocation of the prefix/suffix callback. -/
inductive Ev where
  | sinkWrite (s : String)
  | preHookInvoked
  | sufHookInvoked
deriving DecidableEq, Repr

/-- The bytes the sink receives from a trace, in order. -/
def sinkOutput : List Ev → String
  | [] => ""
  | Ev.sinkWrite s :: rest => s ++ sinkOutput rest
  | _ :: rest => sinkOutput rest

/-- The `Logging` class state: `_level`, `_showLevel`, `_logOutput` (a `Print*`
that may be `NULL`, hence `Option`), and the `_prefix`/`_suffix` callbacks.  A
callback of type `void (*)(Print*)` is modelled by the byte sequence it writes
to the sink when invoked; `none` is a `NULL` function pointer. -/
structure Logging where
  level : Int
  showLevel : Bool
  logOutput : Option Unit
  preHook : Option String
  sufHook : Option String
deriving DecidableEq, Repr

/-- The default constructor `Logging()`: `_level(LOG_LEVEL_SILENT)`,
`_showLevel(true)`, `_logOutput(NULL)`, with `_prefix` and `_suffix`
initialised to `NULL` by their member initialisers. -/
def Logging.init : Logging :=
  { level := 0, showLevel := true, logOutput := none,
    preHook := none, sufHook := none }

/-- The `levels` array `"FEWNTV"` indexed by `level - 1` in `printLevel`. -/
def levels : List Char := ['F', 'E', 'W', 'N', 'T', 'V']

/-- `Logging::printLevel(int level, T msg, ...)`: return an empty trace when
`level > _level`; otherwise invoke the prefix callback if set, write the
severity letter `levels[level - 1]` and `": "` if `_showLevel`, delegate to
`print` for the body, and invoke the suffix callback if set. -/
def Logging.printLevel (st : Logging) (level : Int) (msg : List Char)
    (args : List LogArg) : List Ev :=
  if level > st.level then
    []
  else
    (match st.preHook with
     | some h => [Ev.preHookInvoked, Ev.sinkWrite h]
     | none => []) ++
    (if st.showLevel then
      [Ev.sinkWrite (String.singleton (levels.getD (level - 1).toNat 'F')),
       Ev.sinkWrite ": "]
     else []) ++
    [Ev.sinkWrite (printChars msg args)] ++
    (match st.sufHook with
     | some h => [Ev.sufHookInvoked, Ev.sinkWrite h]
     | none => [])

/-- `Logging::fatal`: `printLevel(LOG_LEVEL_FATAL, msg, args...)`. -/
def Logging.fatal (st : Logging) (msg : List Char) (args : List LogArg) : List Ev :=
  st.printLevel 1 msg args

/-- `Logging::error`: `printLevel(LOG_LEVEL_ERROR, msg, args...)`. -/
def Logging.error (st : Logging) (msg : List Char) (args : List LogArg) : List Ev :=
  st.printLevel 2 msg args

/-- `Logging::warning`: `printLevel(LOG_LEVEL_WARNING, msg, args...)`. -/
def Logging.warning (st : Logging) (msg : List Char) (args : List LogArg) : List Ev :=
  st.printLevel 3 msg args

/-- `Logging::notice`: `printLevel(LOG_LEVEL_NOTICE, msg, args...)`. -/
def Logging.notice (st : Logging) (msg : List Char) (args : List LogArg) : List Ev :=
  st.printLevel 4 msg args

/-- `Logging::trace`: `printLevel(LOG_LEVEL_TRACE, msg, args...)`. -/
def Logging.trace (st : Logging) (msg : List Char) (args : List LogArg) : List Ev :=
  st.printLevel 5 msg args

/-- `Logging::verbose`: `printLevel(LOG_LEVEL_VERBOSE, msg, args...)`. -/
def Logging.verbose (st : Logging) (msg : List Char) (args : List LogArg) : List Ev :=
  st.printLevel 6 msg args

/-- Modelled from the spec: `constrain` is the Arduino core clamp macro (not
part of this repository); values below `low` become `low`, values above `high`
become `high`. -/
def constrain (amt low high : Int) : Int :=
  if amt < low then low else if amt > high then high else amt

/-- `Logging::setLevel`: `_level = constrain(level, LOG_LEVEL_SILENT,
LOG_LEVEL_VERBOSE)`. -/
def Logging.setLevel (st : Logging) (level : Int) : Logging :=
  { st with level := constrain level 0 6 }

/-- `Logging::getLevel`. -/
def Logging.getLevel (st : Logging) : Int := st.level

/-- `Logging::setShowLevel`. -/
def Logging.setShowLevel (st : Logging) (b : Bool) : Logging :=
  { st with showLevel := b }

/-- `Logging::getShowLevel`. -/
def Logging.getShowLevel (st : Logging) : Bool := st.showLevel

/-- `Logging::setOutput`. -/
def Logging.setOutput (st : Logging) (output : Option Unit) : Logging :=
  { st with logOutput := output }

/-- `Logging::setPrefix`: install or clear the prefix callback. -/
def Logging.setPreHook (st : Logging) (f : Option String) : Logging :=
  { st with preHook := f }

/-- `Logging::setSuffix`: install or clear the suffix callback. -/
def Logging.setSufHook (st : Logging) (f : Option String) : Logging :=
  { st with sufHook := f }

/-- `Logging::begin(int level, Print* logOutput, bool showLevel)`:
`setLevel(level); setShowLevel(showLevel); _logOutput = logOutput;`. -/
def Logging.beginLog (st : Logging) (level : Int) (output : Option Unit)
    (showLevel : Bool) : Logging :=
  { (st.setLevel level).setShowLevel showLevel with logOutput := output }

/-- The specifier characters handled by some branch of `printFormat`. -/
def recognizedSpecifiers : List Char :=
  ['%', 's', 'S', 'I', 'P', 'd', 'i', 'D', 'F', 'x', 'X', 'b', 'B', 'l', 'u', 'c', 't', 'T']

/-- A sample configured logger for concrete instantiations: threshold WARNING,
show-level on, sink attached, both callbacks set. -/
def sampleLogger : Logging :=
  { level := 3, showLevel := true, logOutput := some (),
    preHook := some "[pre]", sufHook := some "[suf]" }

theorem sinkOutput_append (a b : List Ev) :
    sinkOutput (a ++ b) = sinkOutput a ++ sinkOutput b := by
  induction a with
  | nil => simp [sinkOutput]
  | cons e rest ih =>
    cases e <;> simp [sinkOutput, ih, String.append_assoc]

theorem printFlash_eq_printChars : ∀ (fmt : List Char) (args : List LogArg),
    printFlash fmt args = printChars fmt args
  | [], _ => rfl
  | c :: p, args => by
    unfold printFlash printChars
    by_cases h : c = '%'
    · simp only [if_pos h]
      cases p with
      | nil => rfl
      | cons c2 p2 =>
        simp [printFlash_eq_printChars p2 (printFormat c2 args).2]
    · simp [h, printFlash_eq_printChars p args]

/-- C1: a leveled call with severity `L` in `{FATAL=1, ..., VERBOSE=6}` writes
the formatted message body to the sink iff `L ≤ T` for the current threshold
`T`; with `T = SILENT = 0` no message of any severity is emitted. -/
theorem level_gate_emits_iff_le_threshold (st : Logging) (L : Int)
    (msg : List Char) (args : List LogArg) (h1 : 1 ≤ L) (h6 : L ≤ 6) :
    (Ev.sinkWrite (printChars msg args) ∈ st.printLevel L msg args ↔
      L ≤ st.level) ∧
    (st.level = 0 → st.printLevel L msg args = []) := by
  by_cases hgt : L > st.level
  · have hempty : st.printLevel L msg args = [] := by
      simp only [Logging.printLevel]
      rw [if_pos hgt]
    refine ⟨?_, fun _ => hempty⟩
    rw [hempty]
    simp only [List.not_mem_nil, false_iff]
    omega
  · push_neg at hgt
    refine ⟨⟨fun _ => hgt, fun _ => ?_⟩, fun h0 => absurd h1 (by omega)⟩
    simp only [Logging.printLevel]
    rw [if_neg (not_lt.2 hgt)]
    simp [List.mem_append]

theorem level_gate_emits_iff_le_threshold_w :
    (1 : Int) ≤ 2 ∧ (2 : Int) ≤ 6 ∧
    ((Ev.sinkWrite (printChars "hi".toList []) ∈
        sampleLogger.printLevel 2 "hi".toList [] ↔ (2 : Int) ≤ sampleLogger.level) ∧
     (sampleLogger.level = 0 → sampleLogger.printLevel 2 "hi".toList [] = [])) :=
  ⟨by decide, by decide,
   level_gate_emits_iff_le_threshold sampleLogger 2 "hi".toList []
     (by decide) (by decide)⟩

/-- C2: a leveled call whose severity exceeds the current threshold has no
side effects: the trace is empty, so nothing is written to the sink and
neither the prefix nor the suffix callback is invoked, even with both set. -/
theorem suppressed_call_has_no_side_effects (st : Logging) (p q : String)
    (_hp : st.preHook = some p) (_hq : st.sufHook = some q)
    (L : Int) (hL : L > st.level) (msg : List Char) (args : List LogArg) :
    st.printLevel L msg args = [] ∧
    Ev.preHookInvoked ∉ st.printLevel L msg args ∧
    Ev.sufHookInvoked ∉ st.printLevel L msg args ∧
    sinkOutput (st.printLevel L msg args) = "" := by
  have hempty : st.printLevel L msg args = [] := by
    simp only [Logging.printLevel]
    rw [if_pos hL]
  refine ⟨hempty, ?_, ?_, ?_⟩ <;> rw [hempty] <;> simp [sinkOutput]

theorem suppressed_call_has_no_side_effects_w :
    sampleLogger.preHook = some "[pre]" ∧
    sampleLogger.sufHook = some "[suf]" ∧
    (4 : Int) > sampleLogger.level ∧
    (sampleLogger.printLevel 4 "x".toList [] = [] ∧
     Ev.preHookInvoked ∉ sampleLogger.printLevel 4 "x".toList [] ∧
     Ev.sufHookInvoked ∉ sampleLogger.printLevel 4 "x".toList [] ∧
     sinkOutput (sampleLogger.printLevel 4 "x".toList []) = "") :=
  ⟨rfl, rfl, by decide,
   suppressed_call_has_no_side_effects sampleLogger "[pre]" "[suf]" rfl rfl 4
     (by decide) "x".toList []⟩

/-- C3: an emitted message reaches the sink as exactly, in order: the prefix
callback's output (if set), then, if show-level is on, the severity letter
(`levels = "FEWNTV"` indexed by `L - 1`, so F/E/W/N/T/V) followed by `": "`,
then the formatted body, then the suffix callback's output (if set);
concretely, `verbose("val=%d", 42)` at threshold VERBOSE yields `"V: val=42"`
with show-level on and `"val=42"` with it off. -/
theorem emission_order_and_level_letters (st : Logging) (L : Int)
    (msg : List Char) (args : List LogArg) (hL : L ≤ st.level) :
    sinkOutput (st.printLevel L msg args) =
      st.preHook.getD "" ++
      (if st.showLevel then
        String.singleton (levels.getD (L - 1).toNat 'F') ++ ": "
       else "") ++
      printChars msg args ++
      st.sufHook.getD "" ∧
    levels = ['F', 'E', 'W', 'N', 'T', 'V'] ∧
    sinkOutput ((Logging.init.beginLog 6 (some ()) true).verbose
      "val=%d".toList [LogArg.int 42]) = "V: val=42" ∧
    sinkOutput ((Logging.init.beginLog 6 (some ()) false).verbose
      "val=%d".toList [LogArg.int 42]) = "val=42" := by
  refine ⟨?_, rfl, by decide, by decide⟩
  simp only [Logging.printLevel]
  rw [if_neg (not_lt.2 hL)]
  rw [sinkOutput_append, sinkOutput_append, sinkOutput_append]
  cases hpre : st.preHook <;> cases hsuf : st.sufHook <;>
    cases hsh : st.showLevel <;>
    simp [sinkOutput, String.append_assoc, String.append_empty,
      String.empty_append]

theorem emission_order_and_level_letters_w :
    (1 : Int) ≤ sampleLogger.level ∧
    (sinkOutput (sampleLogger.printLevel 1 "hi".toList []) =
      sampleLogger.preHook.getD "" ++
      (if sampleLogger.showLevel then
        String.singleton (levels.getD ((1 : Int) - 1).toNat 'F') ++ ": "
       else "") ++
      printChars "hi".toList [] ++
      sampleLogger.sufHook.getD "" ∧
     levels = ['F', 'E', 'W', 'N', 'T', 'V'] ∧
     sinkOutput ((Logging.init.beginLog 6 (some ()) true).verbose
       "val=%d".toList [LogArg.int 42]) = "V: val=42" ∧
     sinkOutput ((Logging.init.beginLog 6 (some ()) false).verbose
       "val=%d".toList [LogArg.int 42]) = "val=42") :=
  ⟨by decide,
   emission_order_and_level_letters sampleLogger 1 "hi".toList [] (by decide)⟩

/-- C4: `setLevel` stores its argument clamped into `[SILENT = 0,
VERBOSE = 6]` with no error: `setLevel (-5)` leaves the state identical to
`setLevel 0`, `setLevel 99` identical to `setLevel 6`, the stored level is
always in range, and `begin` clamps its threshold argument the same way. -/
theorem setLevel_clamps (st : Logging) (v : Int) (output : Option Unit)
    (b : Bool) :
    st.setLevel (-5) = st.setLevel 0 ∧
    st.setLevel 99 = st.setLevel 6 ∧
    0 ≤ (st.setLevel v).level ∧
    (st.setLevel v).level ≤ 6 ∧
    (st.beginLog v output b).level = (st.setLevel v).level := by
  refine ⟨?_, ?_, ?_, ?_, rfl⟩
  · norm_num [Logging.setLevel, constrain]
  · norm_num [Logging.setLevel, constrain]
  · simp only [Logging.setLevel, constrain]
    split_ifs <;> omega
  · simp only [Logging.setLevel, constrain]
    split_ifs <;> omega

/-- C5: rendering of the integer and boolean specifiers: `%x` of 255 is
`"ff"`, `%X` of 255 is `"0xff"`, `%b` of 5 is `"101"`, `%B` of 5 is
`"0b101"`, `%t` is `"T"` for 1 and `"F"` for any other value, and `%T` is
`"true"` for 1 and `"false"` for any other value. -/
theorem specifier_renderings (n : Int) (hn : n ≠ 1) :
    (printFormat 'x' [LogArg.int 255]).1 = "ff" ∧
    (printFormat 'X' [LogArg.int 255]).1 = "0xff" ∧
    (printFormat 'b' [LogArg.int 5]).1 = "101" ∧
    (printFormat 'B' [LogArg.int 5]).1 = "0b101" ∧
    printFormat 't' [LogArg.int 1] = ("T", []) ∧
    printFormat 't' [LogArg.int n] = ("F", []) ∧
    printFormat 'T' [LogArg.int 1] = ("true", []) ∧
    printFormat 'T' [LogArg.int n] = ("false", []) := by
  refine ⟨by decide, by decide, by decide, by decide, by decide, ?_,
    by decide, ?_⟩ <;>
    simp [printFormat, LogArg.asInt, hn]

theorem specifier_renderings_w :
    (0 : Int) ≠ 1 ∧
    ((printFormat 'x' [LogArg.int 255]).1 = "ff" ∧
     (printFormat 'X' [LogArg.int 255]).1 = "0xff" ∧
     (printFormat 'b' [LogArg.int 5]).1 = "101" ∧
     (printFormat 'B' [LogArg.int 5]).1 = "0b101" ∧
     printFormat 't' [LogArg.int 1] = ("T", []) ∧
     printFormat 't' [LogArg.int 0] = ("F", []) ∧
     printFormat 'T' [LogArg.int 1] = ("true", []) ∧
     printFormat 'T' [LogArg.int 0] = ("false", [])) :=
  ⟨by decide, specifier_renderings 0 (by decide)⟩

/-- C6: the sequence `"%%"` writes a single literal `'%'` and consumes no
argument: `printFormat` on `'%'` returns the argument list unchanged, and
scanning continues on the rest of the format string with the same arguments,
on both the normal-memory and the program-memory path. -/
theorem percent_percent_literal (rest : List Char) (args : List LogArg) :
    printFormat '%' args = ("%", args) ∧
    printChars ('%' :: '%' :: rest) args = "%" ++ printChars rest args ∧
    printFlash ('%' :: '%' :: rest) args = "%" ++ printFlash rest args := by
  refine ⟨rfl, ?_, ?_⟩ <;>
    simp [printChars, printFlash, printFormat,
      show String.singleton '%' = "%" from rfl]

/-- C7: a specifier character matching no branch of `printFormat` is consumed
with no output, no argument use and no diagnostic, and scanning continues
with the rest of the format string. -/
theorem unrecognized_specifier_noop (c : Char) (rest : List Char)
    (args : List LogArg) (h : c ∉ recognizedSpecifiers) :
    printFormat c args = ("", args) ∧
    printChars ('%' :: c :: rest) args = printChars rest args := by
  simp only [recognizedSpecifiers, List.mem_cons, List.not_mem_nil, or_false,
    not_or] at h
  obtain ⟨h1, h2, h3, h4, h5, h6, h7, h8, h9, h10, h11, h12, h13, h14, h15,
    h16, h17, h18⟩ := h
  have hf : printFormat c args = ("", args) := by
    simp [printFormat, h1, h2, h3, h4, h5, h6, h7, h8, h9, h10, h11, h12,
      h13, h14, h15, h16, h17, h18]
  refine ⟨hf, ?_⟩
  simp [printChars, hf, String.empty_append]

theorem unrecognized_specifier_noop_w :
    'z' ∉ recognizedSpecifiers ∧
    (printFormat 'z' [LogArg.int 5] = ("", [LogArg.int 5]) ∧
     printChars ('%' :: 'z' :: "ab".toList) [LogArg.int 5] =
       printChars "ab".toList [LogArg.int 5]) :=
  ⟨by decide,
   unrecognized_specifier_noop 'z' "ab".toList [LogArg.int 5] (by decide)⟩

/-- C8: the normal-memory entry path (`print` over `const char*`) and the
program-memory entry path (`print` over `const __FlashStringHelper*`) produce
identical output for every format string and argument list. -/
theorem flash_and_char_paths_agree (fmt : List Char) (args : List LogArg) :
    printFlash fmt args = printChars fmt args :=
  printFlash_eq_printChars fmt args

/-- C9: `getLevel` returns `v` after `setLevel v` for every `v` in
`[SILENT, VERBOSE]`, and `getShowLevel` returns `b` after `setShowLevel b`
for every boolean `b`. -/
theorem getter_setter_roundtrip :
    (∀ (st : Logging) (v : Int), 0 ≤ v → v ≤ 6 →
      (st.setLevel v).getLevel = v) ∧
    (∀ (st : Logging) (b : Bool), (st.setShowLevel b).getShowLevel = b) := by
  constructor
  · intro st v h0 h6
    simp only [Logging.setLevel, Logging.getLevel, constrain]
    split_ifs <;> omega
  · intro st b
    rfl

theorem getter_setter_roundtrip_w :
    (0 : Int) ≤ 4 ∧ (4 : Int) ≤ 6 ∧
    (Logging.init.setLevel 4).getLevel = 4 ∧
    (Logging.init.setShowLevel false).getShowLevel = false :=
  ⟨by decide, by decide,
   getter_setter_roundtrip.1 Logging.init 4 (by decide) (by decide),
   getter_setter_roundtrip.2 Logging.init false⟩

/-- C10: a default-constructed `Logging` has threshold SILENT, show-level on
and a NULL sink, and in this state every leveled entry point returns with an
empty trace: nothing is written and no callback is invoked, so the NULL sink
is never dereferenced. -/
theorem default_state_silent_and_safe :
    Logging.init.level = 0 ∧ Logging.init.showLevel = true ∧
    Logging.init.logOutput = none ∧
    ∀ (msg : List Char) (args : List LogArg),
      Logging.init.fatal msg args = [] ∧
      Logging.init.error msg args = [] ∧
      Logging.init.warning msg args = [] ∧
      Logging.init.notice msg args = [] ∧
      Logging.init.trace msg args = [] ∧
      Logging.init.verbose msg args = [] := by
  refine ⟨rfl, rfl, rfl, fun msg args => ?_⟩
  refine ⟨?_, ?_, ?_, ?_, ?_, ?_⟩ <;>
    · simp only [Logging.fatal, Logging.error, Logging.warning,
        Logging.notice, Logging.trace, Logging.verbose, Logging.printLevel]
      rw [if_pos (by decide)]
